import Mathlib

/-! Formal model of the rtl-sdr driver core (src/rtl-sdr.c).

The C code is shallowly embedded.  The device and tuner structs become Lean
structures; the mutating operations become pure state-passing functions that
return the new state, the C return code, and a trace of the externally
visible actions (I2C repeater toggles, tuner method invocations, demodulator
register writes, GPIO operations).  Machine integers are Nat or Int with an
explicit mod 2 ^ 32 where a 32-bit conversion occurs.  The C double
arithmetic in rtlsdr_set_sample_rate and rtlsdr_set_center_freq is modelled
with exact rational arithmetic, and a C cast of a double to an integer type
truncates toward zero.  The tuner chip drivers (tuner_e4000.h and friends)
are external collaborators that are not part of the source file: following
the specification they are abstract status-returning functions carried
inside the tuner struct, and the chip identification constants are
parameters of the probing function. -/

/-- Truncation toward zero of a rational number: the semantics of a C cast
from double to a signed integer type.  A rational in lowest terms truncates
to the toward-zero integer division of its numerator by its denominator. -/
def ctrunc (q : ℚ) : Int := Int.tdiv q.num (q.den : Int)

/-- Conversion of a C int value to uint32, as happens when an int field is
passed as a uint32 argument. -/
def toU32 (i : Int) : Nat := (Int.emod i (2 ^ 32)).toNat

/-- Externally visible actions of the driver: I2C repeater gate toggles
(rtlsdr_set_i2c_repeater on/off), tuner method invocations through the
function-pointer table, demodulator and system register writes, GPIO
configuration, and I2C identification-register reads. -/
inductive Event where
  | repOpen
  | repClose
  | tunerTune (freq : Int)
  | tunerSetBw (bw : Int)
  | tunerSetGain (gain : Int)
  | tunerExit
  | demodWrite (page : Nat) (addr : Nat) (val : Nat) (len : Nat)
  | regWrite (block : Nat) (addr : Nat) (val : Nat)
  | gpioOutput (gpio : Nat)
  | gpioBit (gpio : Nat) (val : Nat)
  | i2cReadReg (i2c_addr : Nat) (reg : Nat)
  deriving DecidableEq, Repr

/-- The rtlsdr_tuner struct: five function pointers and the cached state
fields freq (Hz), corr (ppm), gain (dB).  The function-pointer targets are
the external chip drivers; per the specification they are abstract
functions from their argument to a status code (init and exit take no
arguments beyond the device, so they are plain status codes here). -/
structure rtlsdr_tuner_t where
  init : Int
  exit : Int
  tune : Int → Int
  set_bw : Int → Int
  set_gain : Int → Int
  freq : Int
  corr : Int
  gain : Int

/-- The rtlsdr_dev struct fields that carry driver-visible state: the
optionally bound tuner (NULL pointer = none), the configured sample rate,
and the streaming-loop flag run_async. -/
structure rtlsdr_dev_t where
  tuner : Option rtlsdr_tuner_t
  rate : Int
  run_async : Bool

/-- Result of a device operation: the device state afterwards (none for a
NULL handle), the C return code, and the trace of external actions. -/
abbrev OpResult := Option rtlsdr_dev_t × Int × List Event

/-- Model of rtlsdr_set_center_freq: fails with -1 on a NULL handle or no
bound tuner; otherwise opens the I2C repeater, applies the ppm correction
multiplicatively (double arithmetic, truncated to int), calls the tuner
tune method, closes the repeater, and caches freq only when tune
returned 0. -/
def rtlsdr_set_center_freq (dev : Option rtlsdr_dev_t) (freq : Nat) : OpResult :=
  match dev with
  | none => (none, -1, [])
  | some d =>
    match d.tuner with
    | none => (some d, -1, [])
    | some t =>
      let f : ℚ := (freq : ℚ) * (1 + (t.corr : ℚ) / 1000000)
      let r := t.tune (ctrunc f)
      let t' := if r = 0 then { t with freq := (freq : Int) } else t
      (some { d with tuner := some t' }, r,
       [Event.repOpen, Event.tunerTune (ctrunc f), Event.repClose])

/-- Model of rtlsdr_set_freq_correction: fails with -1 on a NULL handle, no
tuner, or an unchanged ppm value; otherwise stores the new corr value and
retunes via rtlsdr_set_center_freq at the cached frequency (the int freq
field passed as uint32). -/
def rtlsdr_set_freq_correction (dev : Option rtlsdr_dev_t) (ppm : Int) : OpResult :=
  match dev with
  | none => (none, -1, [])
  | some d =>
    match d.tuner with
    | none => (some d, -1, [])
    | some t =>
      if t.corr = ppm then (some d, -1, [])
      else
        let d' : rtlsdr_dev_t := { d with tuner := some { t with corr := ppm } }
        rtlsdr_set_center_freq (some d') (toU32 t.freq)

/-- Model of rtlsdr_set_tuner_gain: fails with -1 on a NULL handle or no
tuner; otherwise calls the tuner set_gain method (with no I2C repeater
manipulation, exactly as in the source) and caches gain when it
returned 0. -/
def rtlsdr_set_tuner_gain (dev : Option rtlsdr_dev_t) (gain : Int) : OpResult :=
  match dev with
  | none => (none, -1, [])
  | some d =>
    match d.tuner with
    | none => (some d, -1, [])
    | some t =>
      let r := t.set_gain gain
      let t' := if r = 0 then { t with gain := gain } else t
      (some { d with tuner := some t' }, r, [Event.tunerSetGain gain])

/-- Model of rtlsdr_deinit_baseband: opens the repeater, calls the bound
tuner exit method, closes the repeater, powers off the demodulator.  The C
code dereferences dev->tuner without a NULL check, so on a handle with no
bound tuner the function crashes: modelled as none. -/
def rtlsdr_deinit_baseband (d : rtlsdr_dev_t) : Option (List Event) :=
  match d.tuner with
  | none => none
  | some _ =>
    some [Event.repOpen, Event.tunerExit, Event.repClose,
          Event.regWrite 2 0x3000 0x20]

/-- Model of rtlsdr_close: -1 on a NULL handle, otherwise deinitializes the
baseband (which calls the bound tuner exit) and returns 0.  The crash of
rtlsdr_deinit_baseband on an unbound tuner propagates as none. -/
def rtlsdr_close (dev : Option rtlsdr_dev_t) : Option Int :=
  match dev with
  | none => some (-1)
  | some d =>
    match rtlsdr_deinit_baseband d with
    | none => none
    | some _ => some 0

/-- Crystal frequency constant CRYSTAL_FREQ from the source. -/
def CRYSTAL_FREQ : Nat := 28800000

/-- Maximum sample rate constant MAX_SAMP_RATE from the source. -/
def MAX_SAMP_RATE : Nat := 3200000

/-- The resampling ratio computed by rtlsdr_set_sample_rate for an
already-clamped rate: floor(CRYSTAL_FREQ * 2 ^ 22 / samp_rate) converted to
uint32 (the double-to-uint32 conversion of an out-of-range value is
undefined in C; it is modelled as reduction mod 2 ^ 32) with the low two
bits cleared (division and multiplication by 4 is the &= ~3 of the
source). -/
def rsamp_ratio (samp_rate : Nat) : Nat :=
  (CRYSTAL_FREQ * 2 ^ 22 / samp_rate % 2 ^ 32) / 4 * 4

/-- The real_rate recomputed by rtlsdr_set_sample_rate from the written
ratio: CRYSTAL_FREQ * 2 ^ 22 / rsamp_ratio in double (here exact rational)
arithmetic. -/
def achieved_rate (samp_rate : Nat) : ℚ :=
  ((CRYSTAL_FREQ * 2 ^ 22 : Nat) : ℚ) / ((rsamp_ratio samp_rate : Nat) : ℚ)

/-- Model of rtlsdr_set_sample_rate: -1 on a NULL handle; clamps the rate to
MAX_SAMP_RATE, computes the resampling ratio, forwards the recomputed real
rate to the tuner set_bw method when a tuner is bound, records the clamped
rate on the handle, and writes the ratio as two 16-bit demodulator register
writes (high word to page 1 address 0x9f, then low word to page 1 address
0xa1); returns 0. -/
def rtlsdr_set_sample_rate (dev : Option rtlsdr_dev_t) (samp_rate : Nat) : OpResult :=
  match dev with
  | none => (none, -1, [])
  | some d =>
    let sr := if samp_rate > MAX_SAMP_RATE then MAX_SAMP_RATE else samp_rate
    let ratio := rsamp_ratio sr
    let rr : ℚ := ((CRYSTAL_FREQ * 2 ^ 22 : Nat) : ℚ) / ((ratio : Nat) : ℚ)
    let bwEvs : List Event :=
      match d.tuner with
      | some _ => [Event.tunerSetBw (ctrunc rr)]
      | none => []
    (some { d with rate := (sr : Int) }, 0,
     bwEvs ++ [Event.demodWrite 1 0x9f (ratio / 2 ^ 16) 2,
               Event.demodWrite 1 0xa1 (ratio % 2 ^ 16) 2])

/-- Model of rtlsdr_get_sample_rate: -1 on a NULL handle, else the cached
rate field. -/
def rtlsdr_get_sample_rate (dev : Option rtlsdr_dev_t) : Int :=
  match dev with
  | none => -1
  | some d => d.rate

/-- Model of rtlsdr_cancel_async: -1 on a NULL handle; when the streaming
flag run_async is set it is cleared and 0 is returned; otherwise -2 is
returned with no state change.  The function performs no USB calls at all,
so its trace is empty in every case. -/
def rtlsdr_cancel_async (dev : Option rtlsdr_dev_t) : Option rtlsdr_dev_t × Int × List Event :=
  match dev with
  | none => (none, -1, [])
  | some d =>
    if d.run_async then (some { d with run_async := false }, 0, [])
    else (some d, -2, [])

/-- The four tuner variants of the rtlsdr_tuners enumeration. -/
inductive TunerKind where
  | E4000
  | FC0012
  | FC0013
  | FC2580
  deriving DecidableEq, Repr

/-- Chip identification constants for the probing sequence.  They live in
the per-chip headers, which are external to the source file; per the
specification each variant supplies an I2C address, a check register
address and an expected check value. -/
structure TunerConsts where
  e4k_i2c_addr : Nat
  e4k_check_addr : Nat
  e4k_check_val : Nat
  fc0012_i2c_addr : Nat
  fc0012_check_addr : Nat
  fc0012_check_val : Nat
  fc0013_i2c_addr : Nat
  fc0013_check_addr : Nat
  fc0013_check_val : Nat
  fc2580_i2c_addr : Nat
  fc2580_check_addr : Nat
  fc2580_check_val : Nat

/-- The byte each candidate chip answers when its identification register
is read during probing (the behavior of the I2C bus, an input of the
probing algorithm). -/
structure ProbeResponses where
  e4k : Nat
  fc0013 : Nat
  fc2580 : Nat
  fc0012 : Nat

/-- The tuner probing sequence of rtlsdr_open, verbatim from the source:
read the E4000 check register and bind E4000 on a match; else read the
FC0013 check register and bind FC0013 on a match; else configure GPIO 5 as
output and pulse it high then low, read the FC2580 check register and
compare its low 7 bits (the & 0x7f of the source, written mod 128); else
read the FC0012 check register and on a match configure GPIO 6 as output
and bind FC0012; otherwise no tuner is bound.  Returns the bound variant
and the trace of reads and GPIO actions. -/
def probeTuner (c : TunerConsts) (resp : ProbeResponses) :
    Option TunerKind × List Event :=
  let ev1 := [Event.i2cReadReg c.e4k_i2c_addr c.e4k_check_addr]
  if resp.e4k = c.e4k_check_val then (some TunerKind.E4000, ev1)
  else
    let ev2 := ev1 ++ [Event.i2cReadReg c.fc0013_i2c_addr c.fc0013_check_addr]
    if resp.fc0013 = c.fc0013_check_val then (some TunerKind.FC0013, ev2)
    else
      let ev3 := ev2 ++ [Event.gpioOutput 5, Event.gpioBit 5 1, Event.gpioBit 5 0,
                         Event.i2cReadReg c.fc2580_i2c_addr c.fc2580_check_addr]
      if resp.fc2580 % 128 = c.fc2580_check_val then (some TunerKind.FC2580, ev3)
      else
        let ev4 := ev3 ++ [Event.i2cReadReg c.fc0012_i2c_addr c.fc0012_check_addr]
        if resp.fc0012 = c.fc0012_check_val then
          (some TunerKind.FC0012, ev4 ++ [Event.gpioOutput 6])
        else (none, ev4)

/-- The fixed priority chain of the probing sequence, in source order. -/
def tunerChain : List TunerKind :=
  [TunerKind.E4000, TunerKind.FC0013, TunerKind.FC2580, TunerKind.FC0012]

/-- Whether the I2C responses match a given variant signature; written from
the specification's wording (a variant's signature matches when the read
identifier equals the expected constant, with the FC2580 identifier first
masked to 7 bits), to be compared with the probing code. -/
def matchesSig (c : TunerConsts) (resp : ProbeResponses) : TunerKind → Bool
  | TunerKind.E4000 => decide (resp.e4k = c.e4k_check_val)
  | TunerKind.FC0013 => decide (resp.fc0013 = c.fc0013_check_val)
  | TunerKind.FC2580 => decide (resp.fc2580 % 128 = c.fc2580_check_val)
  | TunerKind.FC0012 => decide (resp.fc0012 = c.fc0012_check_val)

/-- An entry of the static supported-device table. -/
structure rtlsdr_device_t where
  vid : Nat
  pid : Nat
  name : String

/-- The static supported-device table devices from the source. -/
def devices : List rtlsdr_device_t :=
  [⟨0x0bda, 0x2832, "Generic RTL2832U (e.g. hama nano)"⟩,
   ⟨0x0bda, 0x2838, "ezcap USB 2.0 DVB-T/DAB/FM dongle"⟩,
   ⟨0x0ccd, 0x00a9, "Terratec Cinergy T Stick Black (rev 1)"⟩,
   ⟨0x0ccd, 0x00b3, "Terratec NOXON DAB/DAB+ USB dongle (rev 1)"⟩,
   ⟨0x0ccd, 0x00e0, "Terratec NOXON DAB/DAB+ USB dongle (rev 2)"⟩,
   ⟨0x1f4d, 0xb803, "GTek T803"⟩,
   ⟨0x1f4d, 0xc803, "Lifeview LV5TDeluxe"⟩,
   ⟨0x1b80, 0xd3a4, "Twintech UT-40"⟩,
   ⟨0x1d19, 0x1101, "Dexatek DK DVB-T Dongle (Logilink VG0002A)"⟩,
   ⟨0x1d19, 0x1102, "Dexatek DK DVB-T Dongle (MSI DigiVox mini II V3.0)"⟩,
   ⟨0x0458, 0x707f, "Genius TVGo DVB-T03 USB dongle (Ver. B)"⟩,
   ⟨0x1b80, 0xd393, "GIGABYTE GT-U7300"⟩,
   ⟨0x1b80, 0xd395, "Peak 102569AGPK"⟩,
   ⟨0x1b80, 0xd39d, "SVEON STV20 DVB-T USB & FM"⟩]

/-- Model of find_known_device: whether some catalog entry matches the
vendor and product id exactly (the caller only tests the pointer against
NULL, so presence suffices). -/
def find_known_device (vid pid : Nat) : Bool :=
  devices.any fun d => d.vid == vid && d.pid == pid

/-- The device-selection loop of rtlsdr_open: walk the enumerated bus list,
incrementing device_count on each catalog match, and break with the current
device when index equals device_count - 1 (computed in uint32 arithmetic,
so with device_count = 0 the comparison is against 2 ^ 32 - 1); otherwise
the device pointer is cleared and the loop continues; none when the list is
exhausted. -/
def selectLoop : List (Nat × Nat) → Nat → Nat → Option (Nat × Nat)
  | [], _, _ => none
  | d :: rest, index, count =>
    let count' := if find_known_device d.1 d.2 then count + 1 else count
    if index = (count' + 2 ^ 32 - 1) % 2 ^ 32 then some d
    else selectLoop rest index count'

/-- Resources acquired by rtlsdr_open, in acquisition order: the malloc'd
dev struct, the libusb context, the enumerated device list, the opened
device handle, the claimed interface.  A field is true while the resource
is held and not yet released. -/
structure Resources where
  mem : Bool
  ctx : Bool
  dev_list : Bool
  devh : Bool
  intf : Bool
  deriving DecidableEq, Repr

/-- The err cleanup block at the end of rtlsdr_open: libusb_exit on the
context and free of the dev struct, nothing else. -/
def errCleanup (res : Resources) : Resources :=
  { res with ctx := false, mem := false }

/-- Environment of one rtlsdr_open call: the enumerated bus (vid, pid
pairs), the return codes of libusb_open and libusb_claim_interface, the
chip identification constants, the I2C probe responses, and the external
tuner table entry for each variant. -/
structure UsbEnv where
  bus : List (Nat × Nat)
  open_ret : Int
  claim_ret : Int
  consts : TunerConsts
  resp : ProbeResponses
  impl : TunerKind → rtlsdr_tuner_t

/-- Outcome of rtlsdr_open: the C return value, the handle written to
out_dev on success, and the final resource state. -/
structure OpenOutcome where
  ret : Int
  handle : Option rtlsdr_dev_t
  res : Resources

/-- Model of rtlsdr_open, following the source path by path.  After malloc,
libusb_init and libusb_get_device_list, the selection loop runs; when no
device is selected the code jumps to err without freeing the device list.
When libusb_open fails the list is freed and the code jumps to err.  After
a successful open the list is freed; when libusb_claim_interface fails the
code jumps to err without closing the device handle.  Otherwise baseband
initialization and tuner probing run and the call returns 0 with the
handle; on success the context, device handle and claimed interface are
retained inside the handle by design. -/
def rtlsdr_open (env : UsbEnv) (index : Nat) : OpenOutcome :=
  let res0 : Resources := ⟨true, true, true, false, false⟩
  match selectLoop env.bus index 0 with
  | none => ⟨-1, none, errCleanup res0⟩
  | some _ =>
    if env.open_ret < 0 then
      ⟨env.open_ret, none, errCleanup { res0 with dev_list := false }⟩
    else
      let res1 : Resources := { res0 with dev_list := false, devh := true }
      if env.claim_ret < 0 then
        ⟨env.claim_ret, none, errCleanup res1⟩
      else
        ⟨0, some { tuner := ((probeTuner env.consts env.resp).1).map env.impl,
                   rate := 0, run_async := false },
         { res1 with intf := true }⟩

/-- The libusb completed status, numerically 0. -/
def LIBUSB_TRANSFER_COMPLETED : Nat := 0

/-- Streaming-engine state visible to the transfer completion handler: the
32-slot buffer pool filled once by rtlsdr_wait_async, and the stored user
callback context. -/
structure StreamEngine where
  xfer_buf : List Nat
  cb_ctx : Nat

/-- Actions of the transfer completion handler: user callback invocation
with (buffer, actual_length, context), transfer resubmission by slot, and
buffer allocation or release (which the handler never performs, but whose
absence the model makes checkable). -/
inductive StreamEvent where
  | userCb (buffer : Nat) (actual_length : Nat) (cb_ctx : Nat)
  | submitXfer (slot : Nat)
  | allocBuf (slot : Nat)
  | freeBuf (slot : Nat)
  deriving DecidableEq, Repr

/-- Model of _libusb_callback: when the transfer status is completed, call
the user callback with the slot's buffer, the actual length and the stored
context, then resubmit the same transfer; on any other status do nothing.
The engine state (in particular the buffer pool) is returned unchanged in
both cases, as the handler never writes it. -/
def _libusb_callback (eng : StreamEngine) (slot status actual_length : Nat) :
    StreamEngine × List StreamEvent :=
  if status = LIBUSB_TRANSFER_COMPLETED then
    (eng, [StreamEvent.userCb (eng.xfer_buf.getD slot 0) actual_length eng.cb_ctx,
           StreamEvent.submitXfer slot])
  else (eng, [])

/-- Whether a trace event is an invocation of a tuner abstraction method. -/
def isTunerCall : Event → Bool
  | Event.tunerTune _ => true
  | Event.tunerSetBw _ => true
  | Event.tunerSetGain _ => true
  | Event.tunerExit => true
  | _ => false

/-- Scan of a trace tracking the I2C repeater gate (initially closed):
true when every tuner method invocation happens while the gate is open and
the gate is closed again at the end of the trace. -/
def guardedAux : List Event → Bool → Bool
  | [], repOn => !repOn
  | e :: rest, repOn =>
    match e with
    | Event.repOpen => guardedAux rest true
    | Event.repClose => guardedAux rest false
    | ev => (!isTunerCall ev || repOn) && guardedAux rest repOn

/-- The repeater discipline of the specification: the I2C repeater gate is
open whenever a tuner abstraction method runs and closed otherwise (and at
the end of the operation). -/
def repeaterGuarded (tr : List Event) : Bool := guardedAux tr false

/-- A tuner whose chip methods all succeed and do nothing, with zeroed
cached state: a concrete instantiation of the external collaborator. -/
def dTun : rtlsdr_tuner_t :=
  ⟨0, 0, fun _ => 0, fun _ => 0, fun _ => 0, 0, 0, 0⟩

/-- A device handle with dTun bound. -/
def devT : rtlsdr_dev_t := ⟨some dTun, 0, false⟩

/-- A device handle in degraded mode: no bound tuner, as produced by a
successful open whose probing matched no variant. -/
def devNone : rtlsdr_dev_t := ⟨none, 0, false⟩

/-- A device handle whose streaming loop is running. -/
def devRun : rtlsdr_dev_t := ⟨none, 0, true⟩

/-- A tuner whose tune method always fails with -3, cached at frequency
100000000 with correction 0: exercises the retune-failure path. -/
def tFail : rtlsdr_tuner_t :=
  ⟨0, 0, fun _ => -3, fun _ => 0, fun _ => 0, 100000000, 0, 0⟩

/-- A device handle with tFail bound. -/
def dFail : rtlsdr_dev_t := ⟨some tFail, 0, false⟩

/-- Sample identification constants (the values of the real chip headers),
used only to instantiate the constant parameters at concrete inputs. -/
def sampleConsts : TunerConsts :=
  ⟨0xc8, 0x02, 0x40, 0xc6, 0x00, 0xa1, 0xc6, 0x00, 0xa3, 0xac, 0x01, 0x56⟩

/-- Probe responses matching no variant of sampleConsts. -/
def respNone : ProbeResponses := ⟨0, 0, 0, 0⟩

/-- Probe responses matching only the FC0012 signature of sampleConsts. -/
def respFC12 : ProbeResponses := ⟨0, 0, 0, 0xa1⟩

/-- An open environment with one supported device on the bus, successful
USB open and claim, and probing that matches no variant: produces a
degraded-mode handle. -/
def envDegraded : UsbEnv :=
  ⟨[(0x0bda, 0x2832)], 0, 0, sampleConsts, respNone, fun _ => dTun⟩

/-- An open environment whose bus holds no device at all. -/
def envNoDevice : UsbEnv :=
  ⟨[], 0, 0, sampleConsts, respNone, fun _ => dTun⟩

/-- An open environment with one supported device where
libusb_claim_interface fails with -6. -/
def envClaimFail : UsbEnv :=
  ⟨[(0x0bda, 0x2832)], 0, -6, sampleConsts, respNone, fun _ => dTun⟩

/-- An open environment with one supported device where libusb_open fails
with -4. -/
def envOpenFail : UsbEnv :=
  ⟨[(0x0bda, 0x2832)], -4, 0, sampleConsts, respNone, fun _ => dTun⟩

/-- A concrete streaming-engine state with two distinguishable buffers. -/
def engW : StreamEngine := ⟨[10, 11], 99⟩

/-- C1: a handle opened in degraded mode (probing matched no variant) comes
back from open with return code 0 and no bound tuner, and set_center_freq,
set_freq_correction and set_tuner_gain on it all return the no-tuner error
-1; but close reaches rtlsdr_deinit_baseband, which dereferences the
unbound (NULL) tuner pointer and crashes instead of returning a no-tuner
error, contradicting the claim at the close step. -/
theorem c1_degraded_mode :
    (rtlsdr_open envDegraded 0).ret = 0 ∧
    (rtlsdr_open envDegraded 0).handle = some devNone ∧
    (rtlsdr_set_center_freq (some devNone) 100000000).2.1 = -1 ∧
    (rtlsdr_set_freq_correction (some devNone) 5).2.1 = -1 ∧
    (rtlsdr_set_tuner_gain (some devNone) 10).2.1 = -1 ∧
    rtlsdr_close (some devNone) = none :=
  ⟨rfl, rfl, rfl, rfl, rfl, rfl⟩

/-- C3: rtlsdr_open does leak on two of its error paths.  With an empty bus
(no matching device) it returns -1 with the enumerated device list never
freed; when libusb_claim_interface fails it returns the error with the
opened device handle never closed.  For contrast, the libusb_open failure
path releases everything. -/
theorem c3_open_leaks :
    (rtlsdr_open envNoDevice 0).ret = -1 ∧
    (rtlsdr_open envNoDevice 0).res.dev_list = true ∧
    (rtlsdr_open envClaimFail 0).ret = -6 ∧
    (rtlsdr_open envClaimFail 0).res.devh = true ∧
    (rtlsdr_open envOpenFail 0).ret = -4 ∧
    (rtlsdr_open envOpenFail 0).res = ⟨false, false, false, false, false⟩ :=
  ⟨rfl, rfl, rfl, rfl, rfl, rfl⟩

/-- C2 counterexample: on a handle with a bound tuner, set_tuner_gain
invokes the tuner set_gain method with the I2C repeater never opened, so
its trace violates the repeater discipline the claim asserts for all three
operations. -/
theorem c2_cex :
    (rtlsdr_set_tuner_gain (some devT) 10).2.2 = [Event.tunerSetGain 10] ∧
    repeaterGuarded (rtlsdr_set_tuner_gain (some devT) 10).2.2 = false :=
  ⟨rfl, rfl⟩

/-- Conclusion of the amended C2 claim for a handle with bound tuner t:
set_center_freq runs the tune call strictly between a repeater open and
close (a guarded trace), set_freq_correction's trace is likewise guarded
(empty on the no-op path, the tune triple otherwise), while set_tuner_gain
invokes set_gain with no repeater manipulation at all, so its trace is not
guarded. -/
def c2Spec (d : rtlsdr_dev_t) (t : rtlsdr_tuner_t) (f : Nat) (g ppm : Int) : Prop :=
  (rtlsdr_set_center_freq (some d) f).2.2 =
    [Event.repOpen,
     Event.tunerTune (ctrunc ((f : ℚ) * (1 + (t.corr : ℚ) / 1000000))),
     Event.repClose] ∧
  repeaterGuarded (rtlsdr_set_center_freq (some d) f).2.2 = true ∧
  repeaterGuarded (rtlsdr_set_freq_correction (some d) ppm).2.2 = true ∧
  (rtlsdr_set_tuner_gain (some d) g).2.2 = [Event.tunerSetGain g] ∧
  repeaterGuarded (rtlsdr_set_tuner_gain (some d) g).2.2 = false

/-- C2 amended: all three operations fail with -1 when no tuner is bound;
set_center_freq and set_freq_correction observe the repeater discipline,
but set_tuner_gain calls the tuner method outside the repeater gate. -/
theorem c2_amended (d d' : rtlsdr_dev_t) (t : rtlsdr_tuner_t) (f : Nat)
    (g ppm : Int) (h : d.tuner = some t) (h' : d'.tuner = none) :
    c2Spec d t f g ppm ∧
    (rtlsdr_set_center_freq (some d') f).2.1 = -1 ∧
    (rtlsdr_set_freq_correction (some d') ppm).2.1 = -1 ∧
    (rtlsdr_set_tuner_gain (some d') g).2.1 = -1 := by
  refine ⟨⟨?_, ?_, ?_, ?_, ?_⟩, ?_, ?_, ?_⟩
  · simp [rtlsdr_set_center_freq, h]
  · simp [rtlsdr_set_center_freq, h, repeaterGuarded, guardedAux, isTunerCall]
  · by_cases hc : t.corr = ppm
    · simp [rtlsdr_set_freq_correction, h, hc, repeaterGuarded, guardedAux]
    · simp [rtlsdr_set_freq_correction, h, hc, rtlsdr_set_center_freq,
            repeaterGuarded, guardedAux, isTunerCall]
  · simp [rtlsdr_set_tuner_gain, h]
  · simp [rtlsdr_set_tuner_gain, h, repeaterGuarded, guardedAux, isTunerCall]
  · simp [rtlsdr_set_center_freq, h']
  · simp [rtlsdr_set_freq_correction, h']
  · simp [rtlsdr_set_tuner_gain, h']

/-- Witness for c2_amended at a concrete bound-tuner handle and a concrete
degraded handle. -/
theorem c2_amended_witness :
    c2Spec devT dTun 1000 1 1 ∧
    (rtlsdr_set_center_freq (some devNone) 1000).2.1 = -1 ∧
    (rtlsdr_set_freq_correction (some devNone) 1).2.1 = -1 ∧
    (rtlsdr_set_tuner_gain (some devNone) 1).2.1 = -1 :=
  c2_amended devT devNone dTun 1000 1 1 rfl rfl

/-- C4: the transfer completion handler leaves the engine state (in
particular the buffer pool) untouched in every case; on a completed status
it invokes the user callback with the slot's buffer, the actual length and
the stored context and then resubmits the same slot; on any other status it
does nothing; and it never allocates or frees a buffer. -/
theorem c4_completion (eng : StreamEngine) (slot st len : Nat) :
    (_libusb_callback eng slot st len).1 = eng ∧
    (st = LIBUSB_TRANSFER_COMPLETED →
      (_libusb_callback eng slot st len).2 =
        [StreamEvent.userCb (eng.xfer_buf.getD slot 0) len eng.cb_ctx,
         StreamEvent.submitXfer slot]) ∧
    (st ≠ LIBUSB_TRANSFER_COMPLETED → (_libusb_callback eng slot st len).2 = []) ∧
    (∀ s, StreamEvent.allocBuf s ∉ (_libusb_callback eng slot st len).2) ∧
    (∀ s, StreamEvent.freeBuf s ∉ (_libusb_callback eng slot st len).2) := by
  unfold _libusb_callback
  by_cases h : st = LIBUSB_TRANSFER_COMPLETED <;> simp [h]

/-- Witness for c4_completion at a completed and a non-completed status. -/
theorem c4_completion_witness :
    (_libusb_callback engW 0 0 512).2 =
      [StreamEvent.userCb 10 512 99, StreamEvent.submitXfer 0] ∧
    (_libusb_callback engW 1 7 512).2 = [] :=
  ⟨(c4_completion engW 0 0 512).2.1 rfl,
   (c4_completion engW 1 7 512).2.2.1 (by decide)⟩

/-- C10: cancel_streaming returns -1 for a NULL handle; for a handle that
is not streaming it returns the distinct sentinel -2 with the state
unchanged; for a streaming handle it clears run_async and returns 0; and in
every case its action trace is empty (it performs no USB calls, so it
neither blocks nor aborts in-flight transfers). -/
theorem c10_cancel :
    rtlsdr_cancel_async none = (none, -1, []) ∧
    (∀ d : rtlsdr_dev_t, d.run_async = false →
      rtlsdr_cancel_async (some d) = (some d, -2, [])) ∧
    (∀ d : rtlsdr_dev_t, d.run_async = true →
      rtlsdr_cancel_async (some d) = (some { d with run_async := false }, 0, [])) := by
  refine ⟨rfl, ?_, ?_⟩ <;> intro d h <;> simp [rtlsdr_cancel_async, h]

/-- Witness for c10_cancel at a streaming and a non-streaming handle. -/
theorem c10_cancel_witness :
    rtlsdr_cancel_async (some devRun) = (some devNone, 0, []) ∧
    rtlsdr_cancel_async (some devNone) = (some devNone, -2, []) :=
  ⟨c10_cancel.2.2 devRun rfl, c10_cancel.2.1 devNone rfl⟩

/-- C5 counterexample: at the requested rate 1000 (inside the claimed
domain 0 < r ≤ 3200000) the exact quotient 120795955200 does not fit in the
uint32 ratio variable, so the stored ratio (536870912 after the 32-bit
conversion) is not the claimed floor value, and the achieved rate computed
from it (225000) misses the request by far more than the claimed 2 ^ -20
relative tolerance. -/
theorem c5_cex :
    rsamp_ratio 1000 = 536870912 ∧
    CRYSTAL_FREQ * 2 ^ 22 / 1000 / 4 * 4 = 120795955200 ∧
    ¬ |achieved_rate 1000 - 1000| ≤ achieved_rate 1000 / 2 ^ 20 := by
  have h : rsamp_ratio 1000 = 536870912 := by decide
  have ha : achieved_rate 1000 = 225000 := by
    simp only [achieved_rate, h]
    norm_num [CRYSTAL_FREQ]
  exact ⟨h, by decide, by rw [ha]; norm_num⟩

/-- C5 amended: for every requested rate r with 28126 ≤ r ≤ 3200000 (the
rates whose ratio fits the 32-bit variable) the stored ratio is
floor(28800000 * 2 ^ 22 / r) with the low two bits cleared, hence a
multiple of 4, and the achieved rate is within the 2 ^ -20 relative
tolerance of the request. -/
theorem c5_amended (r : Nat) (h1 : 28126 ≤ r) (h2 : r ≤ 3200000) :
    rsamp_ratio r = CRYSTAL_FREQ * 2 ^ 22 / r / 4 * 4 ∧
    rsamp_ratio r % 4 = 0 ∧
    |achieved_rate r - (r : ℚ)| ≤ achieved_rate r / 2 ^ 20 := by
  have hr0 : 0 < r := by omega
  have hN : CRYSTAL_FREQ * 2 ^ 22 = 120795955200000 := by norm_num [CRYSTAL_FREQ]
  have hqlt : CRYSTAL_FREQ * 2 ^ 22 / r < 2 ^ 32 := by
    rw [Nat.div_lt_iff_lt_mul hr0, hN]
    calc (120795955200000 : Nat) < 2 ^ 32 * 28126 := by norm_num
    _ ≤ 2 ^ 32 * r := by gcongr
  have hrm : rsamp_ratio r = CRYSTAL_FREQ * 2 ^ 22 / r / 4 * 4 := by
    rw [rsamp_ratio, Nat.mod_eq_of_lt hqlt]
  set q := CRYSTAL_FREQ * 2 ^ 22 / r with hq
  set m := q / 4 * 4 with hm
  have hmul4 : m % 4 = 0 := by omega
  have hqr : q * r ≤ CRYSTAL_FREQ * 2 ^ 22 := Nat.div_mul_le_self _ _
  have hlow : CRYSTAL_FREQ * 2 ^ 22 < q * r + r := Nat.lt_div_mul_add hr0
  have hm_le : m ≤ q := Nat.div_mul_le_self q 4
  have hq_le : q ≤ m + 3 := by omega
  have hq_big : 37748736 ≤ q := by
    have hd : CRYSTAL_FREQ * 2 ^ 22 / 3200000 ≤ q := Nat.div_le_div_left h2 hr0
    rw [hN] at hd
    omega
  have hm_pos : 0 < m := by omega
  have key : 120795955200000 * 1048575 ≤ 1048576 * (m * r) := by
    have ha : q * r ≤ m * r + 3 * r :=
      calc q * r ≤ (m + 3) * r := mul_le_mul_right' hq_le r
      _ = m * r + 3 * r := by ring
    have hb : 120795955200000 < q * r + r := by rw [hN] at hlow; exact hlow
    linarith [h2]
  have low2 : m * r ≤ 120795955200000 := by
    have := mul_le_mul_right' hm_le r
    rw [hN] at hqr
    linarith
  have hm_posQ : (0 : ℚ) < (m : ℚ) := by exact_mod_cast hm_pos
  have hA : achieved_rate r = (120795955200000 : ℚ) / (m : ℚ) := by
    rw [achieved_rate, hrm, hN]
    norm_cast
  have hrA : (r : ℚ) ≤ achieved_rate r := by
    rw [hA, le_div_iff₀ hm_posQ]
    have : r * m ≤ 120795955200000 := by rw [Nat.mul_comm]; exact low2
    exact_mod_cast this
  have hub : achieved_rate r - r ≤ achieved_rate r / 2 ^ 20 := by
    rw [hA]
    have e1 : (120795955200000 : ℚ) / m * m = 120795955200000 :=
      div_mul_cancel₀ _ (ne_of_gt hm_posQ)
    have keyQ : (120795955200000 : ℚ) * 1048575 ≤ 1048576 * ((m : ℚ) * r) := by
      exact_mod_cast key
    nlinarith [e1, keyQ, hm_posQ]
  refine ⟨hrm, by omega, ?_⟩
  rw [abs_of_nonneg (by linarith)]
  exact hub

/-- Witness for c5_amended at the in-range rate 250000. -/
theorem c5_amended_witness :
    rsamp_ratio 250000 = CRYSTAL_FREQ * 2 ^ 22 / 250000 / 4 * 4 ∧
    rsamp_ratio 250000 % 4 = 0 ∧
    |achieved_rate 250000 - (250000 : ℚ)| ≤ achieved_rate 250000 / 2 ^ 20 :=
  c5_amended 250000 (by norm_num) (by norm_num)

/-- C6 counterexample: the ratio computed for the requested rate 2048000 is
not the claimed 58982396. -/
theorem c6_cex : rsamp_ratio 2048000 ≠ 58982396 := by decide

/-- C6 amended: set_sample_rate at 2048000 computes the ratio
floor(28800000 * 4194304 / 2048000) = 58982400, which is already a multiple
of 4 so the low-bit clearing leaves it unchanged; it is written as the two
16-bit demodulator register writes high word 900 (to page 1, address 0x9f)
then low word 0 (to page 1, address 0xa1), the call returns 0, the cached
rate reads back as 2048000, and the achieved rate is exactly 2048000, well
within tolerance. -/
theorem c6_amended :
    rsamp_ratio 2048000 = 58982400 ∧
    (rtlsdr_set_sample_rate (some devNone) 2048000).2.2 =
      [Event.demodWrite 1 0x9f 900 2, Event.demodWrite 1 0xa1 0 2] ∧
    (rtlsdr_set_sample_rate (some devNone) 2048000).2.1 = 0 ∧
    rtlsdr_get_sample_rate (rtlsdr_set_sample_rate (some devNone) 2048000).1 = 2048000 ∧
    achieved_rate 2048000 = 2048000 ∧
    |achieved_rate 2048000 - 2048000| ≤ achieved_rate 2048000 / 2 ^ 20 := by
  have h : rsamp_ratio 2048000 = 58982400 := by decide
  have ha : achieved_rate 2048000 = 2048000 := by
    simp only [achieved_rate, h]
    norm_num [CRYSTAL_FREQ]
  exact ⟨h, rfl, rfl, rfl, ha, by rw [ha]; norm_num⟩

/-- C7: any requested rate above 3200000 is clamped before the ratio is
computed, so set_sample_rate behaves identically to a request of exactly
3200000 (same state, same return code, same register writes), and
get_sample_rate afterwards returns 3200000. -/
theorem c7_clamp (d : rtlsdr_dev_t) (r : Nat) (h : 3200000 < r) :
    rtlsdr_set_sample_rate (some d) r = rtlsdr_set_sample_rate (some d) 3200000 ∧
    rtlsdr_get_sample_rate (rtlsdr_set_sample_rate (some d) r).1 = 3200000 := by
  constructor
  · simp [rtlsdr_set_sample_rate, MAX_SAMP_RATE, h]
  · simp [rtlsdr_set_sample_rate, rtlsdr_get_sample_rate, MAX_SAMP_RATE, h]

/-- Witness for c7_clamp at the rate 4000000. -/
theorem c7_clamp_witness :
    rtlsdr_set_sample_rate (some devNone) 4000000 =
      rtlsdr_set_sample_rate (some devNone) 3200000 ∧
    rtlsdr_get_sample_rate (rtlsdr_set_sample_rate (some devNone) 4000000).1 = 3200000 :=
  c7_clamp devNone 4000000 (by norm_num)

/-- C8: the probing sequence implements exactly the first match of the
fixed priority chain E4000, FC0013, FC2580, FC0012 against the variant
signatures, for every choice of identification constants and every I2C
response: whenever the responses match several variants, the earliest in
the chain is the one bound.  When FC0012 is bound, GPIO 6 is additionally
configured as output. -/
theorem c8_probe_priority (c : TunerConsts) (resp : ProbeResponses) :
    (probeTuner c resp).1 = tunerChain.find? (matchesSig c resp) ∧
    ((probeTuner c resp).1 = some TunerKind.FC0012 →
      Event.gpioOutput 6 ∈ (probeTuner c resp).2) := by
  refine ⟨?_, ?_⟩ <;>
  · by_cases h1 : resp.e4k = c.e4k_check_val <;>
    by_cases h2 : resp.fc0013 = c.fc0013_check_val <;>
    by_cases h3 : resp.fc2580 % 128 = c.fc2580_check_val <;>
    by_cases h4 : resp.fc0012 = c.fc0012_check_val <;>
    simp [probeTuner, tunerChain, matchesSig, h1, h2, h3, h4]

/-- Witness for c8_probe_priority where only the FC0012 signature
matches. -/
theorem c8_probe_priority_witness :
    (probeTuner sampleConsts respFC12).1 =
      tunerChain.find? (matchesSig sampleConsts respFC12) ∧
    Event.gpioOutput 6 ∈ (probeTuner sampleConsts respFC12).2 :=
  ⟨(c8_probe_priority sampleConsts respFC12).1,
   (c8_probe_priority sampleConsts respFC12).2 (by decide)⟩

/-- Shape of rtlsdr_set_center_freq on a handle with bound tuner: the
resulting handle differs from the input only in the tuner state, the corr
and gain fields are untouched, and the freq field is untouched whenever the
tune call did not return 0. -/
theorem set_center_freq_shape (d : rtlsdr_dev_t) (t : rtlsdr_tuner_t) (freq : Nat)
    (h : d.tuner = some t) :
    ∃ t' : rtlsdr_tuner_t,
      (rtlsdr_set_center_freq (some d) freq).1 = some { d with tuner := some t' } ∧
      t'.corr = t.corr ∧ t'.gain = t.gain ∧
      ((rtlsdr_set_center_freq (some d) freq).2.1 ≠ 0 → t'.freq = t.freq) := by
  simp only [rtlsdr_set_center_freq, h]
  by_cases hr : t.tune (ctrunc ((freq : ℚ) * (1 + (t.corr : ℚ) / 1000000))) = 0
  · exact ⟨{ t with freq := (freq : Int) }, by simp [hr], rfl, rfl, by simp [hr]⟩
  · exact ⟨t, by simp [hr], rfl, rfl, fun _ => rfl⟩

/-- Conclusion of the amended C9 claim: with an unchanged ppm the call is a
pure no-op error -1; with a changed ppm the cached correction is set to the
new value unconditionally - also when the retune fails - while the cached
frequency is only left unchanged on failure. -/
def c9Concl (d : rtlsdr_dev_t) (t : rtlsdr_tuner_t) (ppm : Int) : Prop :=
  (t.corr = ppm → rtlsdr_set_freq_correction (some d) ppm = (some d, -1, [])) ∧
  (t.corr ≠ ppm →
    ∃ t' : rtlsdr_tuner_t,
      (rtlsdr_set_freq_correction (some d) ppm).1 = some { d with tuner := some t' } ∧
      t'.corr = ppm ∧ t'.gain = t.gain ∧
      ((rtlsdr_set_freq_correction (some d) ppm).2.1 ≠ 0 → t'.freq = t.freq))

/-- C9 amended: set_freq_correction with the current ppm value is a no-op
error; with a different ppm the cached correction is updated before the
retune and kept even when the retune fails, the cached gain is untouched,
and the cached frequency is untouched when the retune fails. -/
theorem c9_amended (d : rtlsdr_dev_t) (t : rtlsdr_tuner_t) (ppm : Int)
    (h : d.tuner = some t) : c9Concl d t ppm := by
  constructor
  · intro hc
    simp [rtlsdr_set_freq_correction, h, hc]
  · intro hc
    have heq : rtlsdr_set_freq_correction (some d) ppm =
        rtlsdr_set_center_freq
          (some { d with tuner := some { t with corr := ppm } }) (toU32 t.freq) := by
      simp [rtlsdr_set_freq_correction, h, hc]
    obtain ⟨t', h1, h2, h3, h4⟩ :=
      set_center_freq_shape { d with tuner := some { t with corr := ppm } }
        { t with corr := ppm } (toU32 t.freq) rfl
    rw [heq]
    exact ⟨t', h1, h2, h3, h4⟩

/-- Witness for c9_amended at a concrete handle whose tuner fails to
retune. -/
theorem c9_amended_witness : dFail.tuner = some tFail ∧ c9Concl dFail tFail 5 :=
  ⟨rfl, c9_amended dFail tFail 5 rfl⟩

/-- C9 counterexample: on a handle whose tuner tune method always fails
with -3, set_freq_correction from cached correction 0 to 5 returns the
failure -3, yet the cached correction has been changed to 5 - the claim's
assertion that cached state is left unchanged when the retune fails is
false on this input. -/
theorem c9_cex :
    (rtlsdr_set_freq_correction (some dFail) 5).2.1 = -3 ∧
    Option.map rtlsdr_tuner_t.corr
      ((rtlsdr_set_freq_correction (some dFail) 5).1.bind rtlsdr_dev_t.tuner) = some 5 ∧
    tFail.corr = 0 :=
  ⟨rfl, rfl, rfl⟩
